import Mathlib

/-!
Shallow embedding of `src/Error/indexedDB.ts`: a stage-tagged error-boundary
mechanism over IndexedDB acquisition steps, and the `useIndexedDB` storage
access layer built from it.

Conventions of the embedding:
* a JavaScript error object is `JsError` (its `name` and `message` fields);
* console output is a `List LogEntry` accumulated in call order, with the
  console channel (`error` / `warn` / `log`) recorded by the constructor;
* a synchronous "produce a value or throw" action is `Unit → Except JsError α`;
* an asynchronous IndexedDB request is modelled by its issuing step
  (`Except JsError _`, the synchronous throw) carrying, on successful issuing,
  the single settlement notification `Settle _` delivered later through the
  request's `onsuccess` / `onerror` channels;
* a promise-returning operation yields a `POutcome`: `resolved` or `rejected`.
-/

structure JsError where
  name : String
  message : String
deriving Repr, DecidableEq

inductive LogEntry where
  | error (msg : String)
  | warn (msg : String)
  | log (msg : String)
deriving Repr, DecidableEq

/-- A request settlement: exactly one of success (with a result) or failure
(with an error), delivered through `onsuccess` / `onerror`. -/
inductive Settle (α : Type) where
  | success (v : α)
  | failure (e : JsError)
deriving Repr, DecidableEq

/-- What a promise-returning operation rejects with. -/
inductive Reject where
  | requestError (e : JsError)
  | uncaught (e : JsError)
  | failureMessage (s : String)
deriving Repr, DecidableEq

/-- Outcome of a promise-returning operation. -/
inductive POutcome (α : Type) where
  | resolved (v : α)
  | rejected (r : Reject)
deriving Repr, DecidableEq

/-- Modelled from the spec: `customErrHandlerGenerator` is imported from the
`Error` module, which is absent from the repository snapshot (only this caller
is present). Per the spec, the classifier takes a failure name and an action:
it invokes the action; on success it returns the produced value unchanged; on
failure it attaches the failure name to the error object and re-throws. -/
def customErrHandlerGenerator (errorName : String) (action : Unit → Except JsError α) :
    Except JsError α :=
  match action () with
  | Except.ok v => Except.ok v
  | Except.error e => Except.error { e with name := errorName }

/-- Translation of `errorCase` (src/Error/indexedDB.ts lines 14-37): five
independent `if` branches, each emitting `console.error` with the message
built from `err.name` when the name matches that branch, followed by an
unconditional re-throw of the same error.  The returned pair is (console
output, the re-thrown error). -/
def errorCase (err : JsError) : List LogEntry × JsError :=
  ((if err.name = "transactionError" then [LogEntry.error (err.name ++ " 이 발생했습니다")] else []) ++
   (if err.name = "objectStoreError" then [LogEntry.error (err.name ++ " 이 발생했습니다")] else []) ++
   (if err.name = "createError" then [LogEntry.error (err.name ++ " 이 발생했습니다")] else []) ++
   (if err.name = "indexError" then [LogEntry.error (err.name ++ " 이 발생했습니다")] else []) ++
   (if err.name = "openCursorError" then [LogEntry.error (err.name ++ " 이 발생했습니다")] else []),
   err)

/-- Modelled from the spec: `customErrorBoundaryGenerator` is imported from the
absent `Error` module. Per the spec, the boundary runs the (already classified)
action; on success the value passes through unchanged with no diagnostic; when
the action throws a tagged error, the boundary dispatches it to the reporting
policy (`errorCase`), whose re-throw propagates — the failure is never
swallowed. -/
def customErrorBoundaryGenerator (policy : JsError → List LogEntry × JsError)
    (action : Unit → Except JsError α) : List LogEntry × Except JsError α :=
  match action () with
  | Except.ok v => ([], Except.ok v)
  | Except.error e => ((policy e).1, Except.error (policy e).2)

/-- `customErrorBoundary` (line 39): the boundary specialized once to
`errorCase`. -/
def customErrorBoundary (action : Unit → Except JsError α) :
    List LogEntry × Except JsError α :=
  customErrorBoundaryGenerator errorCase action

/-- `errorHandlerGenerator` (line 40): compose the boundary with the classifier
for a fixed stage name. -/
def errorHandlerGenerator (errorName : String) (action : Unit → Except JsError α) :
    List LogEntry × Except JsError α :=
  customErrorBoundary (fun _ => customErrHandlerGenerator errorName action)

def handleTransactionErr (action : Unit → Except JsError α) : List LogEntry × Except JsError α :=
  errorHandlerGenerator "transactionError" action

def handleObjectStoreErr (action : Unit → Except JsError α) : List LogEntry × Except JsError α :=
  errorHandlerGenerator "objectStoreError" action

def handleCreateErr (action : Unit → Except JsError α) : List LogEntry × Except JsError α :=
  errorHandlerGenerator "createError" action

def handleIndexErr (action : Unit → Except JsError α) : List LogEntry × Except JsError α :=
  errorHandlerGenerator "indexError" action

def handleOpenCursorErr (action : Unit → Except JsError α) : List LogEntry × Except JsError α :=
  errorHandlerGenerator "openCursorError" action

/-- A schema object store (table): its name, key path, and declared indexes
(each an index name, a key path and a uniqueness flag). -/
structure Store where
  name : String
  keyPath : String
  indexes : List (String × String × Bool)
deriving Repr, DecidableEq

/-- The database handle's schema-visible state: its object stores. -/
structure DB where
  stores : List Store
deriving Repr, DecidableEq

/-- `db.objectStoreNames` of an `IDBDatabase`. -/
def DB.objectStoreNames (db : DB) : List String :=
  db.stores.map Store.name

/-- Modelled from the spec: `indexing` is imported from
`indexedDB/versionManager`, absent from the repository snapshot. Per the spec
it is the fixed field used both as every table's key path and as the name and
key path of its single unique index; its concrete string is immaterial to the
claims. -/
def indexingMemo : String := "memo"

/-- The external asynchronous engine, consumed strictly through its public
contract. Transaction, table and index handles are opaque identifiers
(`Nat`). Each request-issuing call returns `Except JsError _`: the `error`
case is a synchronous throw at issuing time; the `ok` case carries the single
later settlement notification. `openCursor` takes the direction string and,
on a successful notification, carries the entries in cursor order (so the
value at the current — first — cursor position is the head, and an empty list
is a null `cursor.result`). -/
structure Engine (K V : Type) where
  transaction : DB → String → String → Except JsError Nat
  objectStore : Nat → String → Except JsError Nat
  index : Nat → String → Except JsError Nat
  openCursor : Nat → String → Except JsError (Settle (List V))
  get : Nat → K → Except JsError (Settle (Option V))
  add : Nat → V → Option K → Except JsError (Settle Unit)
  put : Nat → V → Option K → Except JsError (Settle Unit)
  delete : Nat → Option K → Except JsError (Settle Unit)
  deleteDatabase : String → Settle Unit

/-- `getDatabase` (line 104): returns the currently held handle. -/
def getDatabase (database : Option DB) : Option DB :=
  database

/-- `destroyDatabase` (lines 106-113): with no handle, warn and return;
otherwise request deletion of the named database and return its pending
outcome. -/
def destroyDatabase (database : Option DB) (eng : Engine K V) (dbName : String) :
    List LogEntry × Option (Settle Unit) :=
  match database with
  | none => ([LogEntry.warn "no database"], none)
  | some _ => ([], some (eng.deleteDatabase dbName))

/-- `createTable` (lines 115-128): with no handle, log an error and return;
if the name is already an object store, do nothing (implicit `undefined`
return); otherwise create the store with key path `indexing.memo`, declare
the unique index on the same field, and return the store.  The result is
(console output, updated handle, returned store). -/
def createTable (db : Option DB) (tableName : String) :
    List LogEntry × Option DB × Option Store :=
  match db with
  | none => ([LogEntry.error "no database"], none, none)
  | some db =>
    if db.objectStoreNames.contains tableName then
      ([], some db, none)
    else
      ([], some { stores := db.stores ++
          [{ name := tableName, keyPath := indexingMemo,
             indexes := [(indexingMemo, indexingMemo, true)] }] },
        some { name := tableName, keyPath := indexingMemo,
               indexes := [(indexingMemo, indexingMemo, true)] })

/-- `deleteTable` (lines 130-137): with a null handle, log an error and
return; otherwise remove the named object store from the handle. -/
def deleteTable (database : Option DB) (tableName : String) :
    List LogEntry × Option DB :=
  match database with
  | none => ([LogEntry.error "no database"], none)
  | some db =>
    ([], some { stores := db.stores.filter (fun s => s.name ≠ tableName) })

/-- `getValue` (lines 139-160): with no handle, resolve with `undefined`.
Otherwise open a read-only transaction (stage handler `transactionError`),
acquire the table (stage handler `objectStoreError`), issue a get-by-key
request; its success notification resolves with the retrieved value, its
error notification rejects with the request's error.  Any synchronous throw
is caught and rejected as the `uncaught error` envelope.  The `indexing`
parameter is accepted but never consulted. -/
def getValue (database : Option DB) (eng : Engine K V) (tableName : String)
    (indexing : Option String) (key : K) : List LogEntry × POutcome (Option V) :=
  match database with
  | none => ([], POutcome.resolved none)
  | some db =>
    match handleTransactionErr (fun _ => eng.transaction db tableName "readonly") with
    | (l1, Except.error e) => (l1, POutcome.rejected (Reject.uncaught e))
    | (l1, Except.ok txn) =>
      match handleObjectStoreErr (fun _ => eng.objectStore txn tableName) with
      | (l2, Except.error e) => (l1 ++ l2, POutcome.rejected (Reject.uncaught e))
      | (l2, Except.ok tbl) =>
        match eng.get tbl key with
        | Except.error e => (l1 ++ l2, POutcome.rejected (Reject.uncaught e))
        | Except.ok (Settle.success v) => (l1 ++ l2, POutcome.resolved v)
        | Except.ok (Settle.failure e) => (l1 ++ l2, POutcome.rejected (Reject.requestError e))

/-- `getLastValueFromTable` (lines 162-186): with no handle, resolve with
`undefined`. Otherwise open a read-only transaction, acquire the table,
acquire the named index (stage handler `indexError`), open a reverse cursor
(stage handler `openCursorError`); the cursor's success notification resolves
with `cursor.result?.value` — the value at the first cursor position if any,
else `undefined` — and its error notification rejects with a fixed `Error`
message.  Any synchronous throw is caught and rejected as the
`uncaught error` envelope. -/
def getLastValueFromTable (database : Option DB) (eng : Engine K V)
    (tableName : String) (indexing : String) : List LogEntry × POutcome (Option V) :=
  match database with
  | none => ([], POutcome.resolved none)
  | some db =>
    match handleTransactionErr (fun _ => eng.transaction db tableName "readonly") with
    | (l1, Except.error e) => (l1, POutcome.rejected (Reject.uncaught e))
    | (l1, Except.ok txn) =>
      match handleObjectStoreErr (fun _ => eng.objectStore txn tableName) with
      | (l2, Except.error e) => (l1 ++ l2, POutcome.rejected (Reject.uncaught e))
      | (l2, Except.ok tbl) =>
        match handleIndexErr (fun _ => eng.index tbl indexing) with
        | (l3, Except.error e) => (l1 ++ l2 ++ l3, POutcome.rejected (Reject.uncaught e))
        | (l3, Except.ok idx) =>
          match handleOpenCursorErr (fun _ => eng.openCursor idx "prev") with
          | (l4, Except.error e) =>
            (l1 ++ l2 ++ l3 ++ l4, POutcome.rejected (Reject.uncaught e))
          | (l4, Except.ok (Settle.success entries)) =>
            (l1 ++ l2 ++ l3 ++ l4, POutcome.resolved entries.head?)
          | (l4, Except.ok (Settle.failure _)) =>
            (l1 ++ l2 ++ l3 ++ l4,
              POutcome.rejected (Reject.failureMessage
                "Failed to retrieve last value from object store"))

/-- Observable outcome of a fire-and-forget write operation: the console
output and how many times each caller-supplied callback was invoked.  The
operations return normally on every path (their bodies are wrapped in
`try`/`catch`), so there is no thrown or rejected component. -/
structure WriteResult where
  logs : List LogEntry
  successCalls : Nat
  errorCalls : Nat
deriving Repr, DecidableEq

/-- `saveValue` (lines 196-217): with no handle, log an error and return.
Otherwise open a read-write transaction (stage handler), acquire the table
(stage handler), and issue `add` when `type` is `"add"`, else `put` (stage
handler `createError` wraps the issuing).  The request's success notification
logs `save success` and invokes `onSuccess` when supplied; its error
notification logs the insufficient-space error and invokes `onError` when
supplied.  A synchronous throw is caught and only logged. Caller-supplied
callbacks are modelled by their presence (`Bool`). -/
def saveValue (database : Option DB) (eng : Engine K V) (tableName : String)
    (key : Option K) (value : V) (type : String) (onSuccess onError : Bool) :
    WriteResult :=
  match database with
  | none => ⟨[LogEntry.error "no database"], 0, 0⟩
  | some db =>
    match handleTransactionErr (fun _ => eng.transaction db tableName "readwrite") with
    | (l1, Except.error _) => ⟨l1 ++ [LogEntry.log "uncaught error"], 0, 0⟩
    | (l1, Except.ok txn) =>
      match handleObjectStoreErr (fun _ => eng.objectStore txn tableName) with
      | (l2, Except.error _) => ⟨l1 ++ l2 ++ [LogEntry.log "uncaught error"], 0, 0⟩
      | (l2, Except.ok tbl) =>
        match handleCreateErr (fun _ =>
            if type = "add" then eng.add tbl value key else eng.put tbl value key) with
        | (l3, Except.error _) =>
          ⟨l1 ++ l2 ++ l3 ++ [LogEntry.log "uncaught error"], 0, 0⟩
        | (l3, Except.ok (Settle.success _)) =>
          ⟨l1 ++ l2 ++ l3 ++ [LogEntry.log "save success"],
            if onSuccess then 1 else 0, 0⟩
        | (l3, Except.ok (Settle.failure _)) =>
          ⟨l1 ++ l2 ++ l3 ++ [LogEntry.error "no suffient space to save data"],
            0, if onError then 1 else 0⟩

/-- `deleteValue` (lines 226-246): with no handle, log an error and return.
Otherwise open a read-write transaction (stage handler), acquire the table
(stage handler), and issue a delete-by-key request with no stage handler
around it; its notifications invoke the matching supplied callback.  A
synchronous throw is caught and only logged. -/
def deleteValue (database : Option DB) (eng : Engine K V) (tableName : String)
    (key : Option K) (onSuccess onError : Bool) : WriteResult :=
  match database with
  | none => ⟨[LogEntry.error "no database"], 0, 0⟩
  | some db =>
    match handleTransactionErr (fun _ => eng.transaction db tableName "readwrite") with
    | (l1, Except.error _) => ⟨l1 ++ [LogEntry.log "uncaught error"], 0, 0⟩
    | (l1, Except.ok txn) =>
      match handleObjectStoreErr (fun _ => eng.objectStore txn tableName) with
      | (l2, Except.error _) => ⟨l1 ++ l2 ++ [LogEntry.log "uncaught error"], 0, 0⟩
      | (l2, Except.ok tbl) =>
        match eng.delete tbl key with
        | Except.error _ => ⟨l1 ++ l2 ++ [LogEntry.log "uncaught error"], 0, 0⟩
        | Except.ok (Settle.success _) => ⟨l1 ++ l2, if onSuccess then 1 else 0, 0⟩
        | Except.ok (Settle.failure _) => ⟨l1 ++ l2, 0, if onError then 1 else 0⟩

/-- A concrete engine on `Nat` keys and values whose every step succeeds;
used to instantiate theorems with hypotheses at concrete inputs. -/
def engOk : Engine Nat Nat where
  transaction := fun _ _ _ => Except.ok 0
  objectStore := fun _ _ => Except.ok 1
  index := fun _ _ => Except.ok 2
  openCursor := fun _ _ => Except.ok (Settle.success [5, 3])
  get := fun _ _ => Except.ok (Settle.success (some 7))
  add := fun _ _ _ => Except.ok (Settle.success ())
  put := fun _ _ _ => Except.ok (Settle.success ())
  delete := fun _ _ => Except.ok (Settle.success ())
  deleteDatabase := fun _ => Settle.success ()

/-- A sample raw thrown error. -/
def errE : JsError := { name := "TypeError", message := "boom" }

/-- A concrete database handle holding one table. -/
def db0 : DB := { stores := [{ name := "memoTable", keyPath := "memo", indexes := [] }] }

/-- A concrete engine whose transaction opening throws synchronously. -/
def engTxnFail : Engine Nat Nat :=
  { engOk with transaction := fun _ _ _ => Except.error errE }

/-- A concrete engine whose cursor settles with an error notification. -/
def engCursorFail : Engine Nat Nat :=
  { engOk with openCursor := fun _ _ => Except.ok (Settle.failure errE) }

/-- C1: for each of the five stage names, invoking the corresponding stage
handler with an action that throws an error `e` emits exactly one diagnostic
referencing that stage name and re-throws the error tagged with that name
(wrapping `e`: only its `name` is replaced, the rest is preserved) — the
failure is never swallowed. -/
theorem stage_handler_failure_reports_once_and_rethrows (α : Type) (e : JsError) :
    handleTransactionErr (α := α) (fun _ => Except.error e) =
      ([LogEntry.error "transactionError 이 발생했습니다"],
        Except.error { e with name := "transactionError" }) ∧
    handleObjectStoreErr (α := α) (fun _ => Except.error e) =
      ([LogEntry.error "objectStoreError 이 발생했습니다"],
        Except.error { e with name := "objectStoreError" }) ∧
    handleCreateErr (α := α) (fun _ => Except.error e) =
      ([LogEntry.error "createError 이 발생했습니다"],
        Except.error { e with name := "createError" }) ∧
    handleIndexErr (α := α) (fun _ => Except.error e) =
      ([LogEntry.error "indexError 이 발생했습니다"],
        Except.error { e with name := "indexError" }) ∧
    handleOpenCursorErr (α := α) (fun _ => Except.error e) =
      ([LogEntry.error "openCursorError 이 발생했습니다"],
        Except.error { e with name := "openCursorError" }) :=
  ⟨rfl, rfl, rfl, rfl, rfl⟩

/-- C9: every stage handler (and the generator they all come from, at any
stage name) maps a non-throwing action to the action's value unchanged, with
no diagnostic emitted. -/
theorem stage_handler_success_is_identity (α : Type) (v : α) :
    (∀ n : String, errorHandlerGenerator n (fun _ => Except.ok v) = ([], Except.ok v)) ∧
    handleTransactionErr (fun _ => Except.ok v) = ([], Except.ok v) ∧
    handleObjectStoreErr (fun _ => Except.ok v) = ([], Except.ok v) ∧
    handleCreateErr (fun _ => Except.ok v) = ([], Except.ok v) ∧
    handleIndexErr (fun _ => Except.ok v) = ([], Except.ok v) ∧
    handleOpenCursorErr (fun _ => Except.ok v) = ([], Except.ok v) :=
  ⟨fun _ => rfl, rfl, rfl, rfl, rfl, rfl⟩

/-- C2: with a null/absent database handle, every exposed operation takes its
early outcome without consulting the engine (the results below hold for every
engine, so no engine call is performed): `getDatabase`, `getValue` and
`getLastValueFromTable` resolve to absent, `destroyDatabase` warns and
returns, and `createTable`, `deleteTable`, `saveValue`, `deleteValue` log an
error and return — no operation crashes on the null handle. -/
theorem null_handle_operations_no_op (K V : Type) (eng : Engine K V)
    (dbName tableName idxName ty : String) (i : Option String) (k : K)
    (key : Option K) (v : V) (b1 b2 : Bool) :
    getDatabase none = none ∧
    destroyDatabase none eng dbName = ([LogEntry.warn "no database"], none) ∧
    createTable none tableName = ([LogEntry.error "no database"], none, none) ∧
    deleteTable none tableName = ([LogEntry.error "no database"], none) ∧
    getValue none eng tableName i k = ([], POutcome.resolved none) ∧
    getLastValueFromTable none eng tableName idxName = ([], POutcome.resolved none) ∧
    saveValue none eng tableName key v ty b1 b2 = ⟨[LogEntry.error "no database"], 0, 0⟩ ∧
    deleteValue none eng tableName key b1 b2 = ⟨[LogEntry.error "no database"], 0, 0⟩ :=
  ⟨rfl, rfl, rfl, rfl, rfl, rfl, rfl, rfl⟩

/-- C3: `getValue` invoked with no current database handle resolves its
pending result with `undefined` (absent) and never rejects, whatever the
engine, table name, `indexing` argument and key. -/
theorem getValue_null_handle_resolves_undefined (K V : Type) (eng : Engine K V)
    (tableName : String) (i : Option String) (k : K) :
    getValue none eng tableName i k = ([], POutcome.resolved none) :=
  rfl

/-- C10: `getValue` is independent of its optional `indexing` parameter: two
invocations agreeing on the handle, engine, table name and key but differing
in `indexing` perform the same acquisitions and produce the same console
output and the same outcome — the parameter is accepted but never
consulted. -/
theorem getValue_independent_of_indexing (K V : Type) (database : Option DB)
    (eng : Engine K V) (tableName : String) (i1 i2 : Option String) (k : K) :
    getValue database eng tableName i1 k = getValue database eng tableName i2 k :=
  rfl

/-- C4: for the read operations `getValue` and `getLastValueFromTable`, any
synchronous throw during the acquisition sequence — a re-throw from a stage
handler (which tags the error with the stage name, preserving the rest) or
the raw throw of the get-by-key issuing — is caught and turned into a
rejection with the `uncaught error` envelope carrying that error; it never
escapes to the caller. -/
theorem read_sync_throw_rejects_uncaught (K V : Type) (eng : Engine K V) (db : DB)
    (tableName : String) (i : Option String) (k : K) (idxName : String) :
    (∀ e, eng.transaction db tableName "readonly" = Except.error e →
      (getValue (some db) eng tableName i k).2 =
          POutcome.rejected (Reject.uncaught { e with name := "transactionError" }) ∧
        (getLastValueFromTable (some db) eng tableName idxName).2 =
          POutcome.rejected (Reject.uncaught { e with name := "transactionError" })) ∧
    (∀ txn e, eng.transaction db tableName "readonly" = Except.ok txn →
      eng.objectStore txn tableName = Except.error e →
      (getValue (some db) eng tableName i k).2 =
          POutcome.rejected (Reject.uncaught { e with name := "objectStoreError" }) ∧
        (getLastValueFromTable (some db) eng tableName idxName).2 =
          POutcome.rejected (Reject.uncaught { e with name := "objectStoreError" })) ∧
    (∀ txn tbl e, eng.transaction db tableName "readonly" = Except.ok txn →
      eng.objectStore txn tableName = Except.ok tbl →
      eng.get tbl k = Except.error e →
      (getValue (some db) eng tableName i k).2 =
        POutcome.rejected (Reject.uncaught e)) ∧
    (∀ txn tbl e, eng.transaction db tableName "readonly" = Except.ok txn →
      eng.objectStore txn tableName = Except.ok tbl →
      eng.index tbl idxName = Except.error e →
      (getLastValueFromTable (some db) eng tableName idxName).2 =
        POutcome.rejected (Reject.uncaught { e with name := "indexError" })) ∧
    (∀ txn tbl ix e, eng.transaction db tableName "readonly" = Except.ok txn →
      eng.objectStore txn tableName = Except.ok tbl →
      eng.index tbl idxName = Except.ok ix →
      eng.openCursor ix "prev" = Except.error e →
      (getLastValueFromTable (some db) eng tableName idxName).2 =
        POutcome.rejected (Reject.uncaught { e with name := "openCursorError" })) := by
  refine ⟨?_, ?_, ?_, ?_, ?_⟩
  · intro e h
    constructor <;>
      simp [getValue, getLastValueFromTable, handleTransactionErr, errorHandlerGenerator,
        customErrorBoundary, customErrorBoundaryGenerator, customErrHandlerGenerator,
        errorCase, h]
  · intro txn e h1 h2
    constructor <;>
      simp [getValue, getLastValueFromTable, handleTransactionErr, handleObjectStoreErr,
        errorHandlerGenerator, customErrorBoundary, customErrorBoundaryGenerator,
        customErrHandlerGenerator, errorCase, h1, h2]
  · intro txn tbl e h1 h2 h3
    simp [getValue, handleTransactionErr, handleObjectStoreErr,
      errorHandlerGenerator, customErrorBoundary, customErrorBoundaryGenerator,
      customErrHandlerGenerator, errorCase, h1, h2, h3]
  · intro txn tbl e h1 h2 h3
    simp [getLastValueFromTable, handleTransactionErr, handleObjectStoreErr, handleIndexErr,
      errorHandlerGenerator, customErrorBoundary, customErrorBoundaryGenerator,
      customErrHandlerGenerator, errorCase, h1, h2, h3]
  · intro txn tbl ix e h1 h2 h3 h4
    simp [getLastValueFromTable, handleTransactionErr, handleObjectStoreErr, handleIndexErr,
      handleOpenCursorErr, errorHandlerGenerator, customErrorBoundary,
      customErrorBoundaryGenerator, customErrHandlerGenerator, errorCase, h1, h2, h3, h4]

/-- Witness for C4: with a concrete engine whose transaction opening throws
`errE`, `getValue` on a held handle rejects with the `uncaught error` envelope
carrying the tagged error. -/
theorem read_sync_throw_rejects_uncaught_witness :
    (getValue (some db0) engTxnFail "memoTable" none 1).2 =
      POutcome.rejected (Reject.uncaught { errE with name := "transactionError" }) :=
  ((read_sync_throw_rejects_uncaught Nat Nat engTxnFail db0 "memoTable" none 1 "memo").1
    errE rfl).1

/-- C5: for the write operations `saveValue` and `deleteValue`, any
synchronous throw during setup yields a logged-only outcome — the operation
still returns a `WriteResult` (no throw to the caller, no pending result at
all), its console output ends with the `uncaught error` log, and neither
callback is invoked; a request-level asynchronous error instead invokes the
caller-supplied `onError` exactly when it is present, invokes `onSuccess`
never, and produces no `uncaught error` log. -/
theorem write_sync_throw_logged_only (K V : Type) (eng : Engine K V) (db : DB)
    (tableName : String) (key : Option K) (v : V) (ty : String) (b1 b2 : Bool) :
    (∀ e, eng.transaction db tableName "readwrite" = Except.error e →
      saveValue (some db) eng tableName key v ty b1 b2 =
          ⟨[LogEntry.error "transactionError 이 발생했습니다",
            LogEntry.log "uncaught error"], 0, 0⟩ ∧
        deleteValue (some db) eng tableName key b1 b2 =
          ⟨[LogEntry.error "transactionError 이 발생했습니다",
            LogEntry.log "uncaught error"], 0, 0⟩) ∧
    (∀ txn e, eng.transaction db tableName "readwrite" = Except.ok txn →
      eng.objectStore txn tableName = Except.error e →
      saveValue (some db) eng tableName key v ty b1 b2 =
          ⟨[LogEntry.error "objectStoreError 이 발생했습니다",
            LogEntry.log "uncaught error"], 0, 0⟩ ∧
        deleteValue (some db) eng tableName key b1 b2 =
          ⟨[LogEntry.error "objectStoreError 이 발생했습니다",
            LogEntry.log "uncaught error"], 0, 0⟩) ∧
    (∀ txn tbl e, eng.transaction db tableName "readwrite" = Except.ok txn →
      eng.objectStore txn tableName = Except.ok tbl →
      (if ty = "add" then eng.add tbl v key else eng.put tbl v key) = Except.error e →
      saveValue (some db) eng tableName key v ty b1 b2 =
        ⟨[LogEntry.error "createError 이 발생했습니다",
          LogEntry.log "uncaught error"], 0, 0⟩) ∧
    (∀ txn tbl e, eng.transaction db tableName "readwrite" = Except.ok txn →
      eng.objectStore txn tableName = Except.ok tbl →
      eng.delete tbl key = Except.error e →
      deleteValue (some db) eng tableName key b1 b2 =
        ⟨[LogEntry.log "uncaught error"], 0, 0⟩) ∧
    (∀ txn tbl e, eng.transaction db tableName "readwrite" = Except.ok txn →
      eng.objectStore txn tableName = Except.ok tbl →
      (if ty = "add" then eng.add tbl v key else eng.put tbl v key) =
        Except.ok (Settle.failure e) →
      saveValue (some db) eng tableName key v ty b1 b2 =
        ⟨[LogEntry.error "no suffient space to save data"], 0, if b2 then 1 else 0⟩) ∧
    (∀ txn tbl e, eng.transaction db tableName "readwrite" = Except.ok txn →
      eng.objectStore txn tableName = Except.ok tbl →
      eng.delete tbl key = Except.ok (Settle.failure e) →
      deleteValue (some db) eng tableName key b1 b2 =
        ⟨[], 0, if b2 then 1 else 0⟩) := by
  refine ⟨?_, ?_, ?_, ?_, ?_, ?_⟩
  · intro e h
    constructor <;>
      simp [saveValue, deleteValue, handleTransactionErr, errorHandlerGenerator,
        customErrorBoundary, customErrorBoundaryGenerator, customErrHandlerGenerator,
        errorCase, h]
  · intro txn e h1 h2
    constructor <;>
      simp [saveValue, deleteValue, handleTransactionErr, handleObjectStoreErr,
        errorHandlerGenerator, customErrorBoundary, customErrorBoundaryGenerator,
        customErrHandlerGenerator, errorCase, h1, h2]
  · intro txn tbl e h1 h2 h3
    simp [saveValue, handleTransactionErr, handleObjectStoreErr, handleCreateErr,
      errorHandlerGenerator, customErrorBoundary, customErrorBoundaryGenerator,
      customErrHandlerGenerator, errorCase, h1, h2, h3]
  · intro txn tbl e h1 h2 h3
    simp [deleteValue, handleTransactionErr, handleObjectStoreErr,
      errorHandlerGenerator, customErrorBoundary, customErrorBoundaryGenerator,
      customErrHandlerGenerator, errorCase, h1, h2, h3]
  · intro txn tbl e h1 h2 h3
    simp [saveValue, handleTransactionErr, handleObjectStoreErr, handleCreateErr,
      errorHandlerGenerator, customErrorBoundary, customErrorBoundaryGenerator,
      customErrHandlerGenerator, errorCase, h1, h2, h3]
  · intro txn tbl e h1 h2 h3
    simp [deleteValue, handleTransactionErr, handleObjectStoreErr,
      errorHandlerGenerator, customErrorBoundary, customErrorBoundaryGenerator,
      customErrHandlerGenerator, errorCase, h1, h2, h3]

/-- Witness for C5: with a concrete engine whose transaction opening throws
`errE`, `saveValue` on a held handle returns the logged-only outcome with no
callback invoked. -/
theorem write_sync_throw_logged_only_witness :
    saveValue (some db0) engTxnFail "memoTable" none 42 "put" true true =
      ⟨[LogEntry.error "transactionError 이 발생했습니다",
        LogEntry.log "uncaught error"], 0, 0⟩ :=
  ((write_sync_throw_logged_only Nat Nat engTxnFail db0 "memoTable" none 42 "put"
    true true).1 errE rfl).1

/-- Helper: when every acquisition succeeds and the cursor notifies success
with `entries`, `getLastValueFromTable` resolves with the head entry. -/
theorem getLast_resolves_head (K V : Type) (eng : Engine K V) (db : DB)
    (tableName idxName : String) (txn tbl ix : Nat) (entries : List V)
    (h1 : eng.transaction db tableName "readonly" = Except.ok txn)
    (h2 : eng.objectStore txn tableName = Except.ok tbl)
    (h3 : eng.index tbl idxName = Except.ok ix)
    (h4 : eng.openCursor ix "prev" = Except.ok (Settle.success entries)) :
    getLastValueFromTable (some db) eng tableName idxName =
      ([], POutcome.resolved entries.head?) := by
  simp [getLastValueFromTable, handleTransactionErr, handleObjectStoreErr, handleIndexErr,
    handleOpenCursorErr, errorHandlerGenerator, customErrorBoundary,
    customErrorBoundaryGenerator, customErrHandlerGenerator, errorCase, h1, h2, h3, h4]

/-- C6: `getLastValueFromTable` on a held handle resolves, on the cursor's
success notification, with the value at the current (first) cursor position
when one exists and with absent otherwise; on the cursor's error notification
it rejects with the fixed descriptive message.  Only the first notification
entry is consulted — two cursors agreeing on their first entry give the same
outcome, whatever lies beyond it. -/
theorem getLast_cursor_first_entry_or_fixed_reject (K V : Type) (eng : Engine K V)
    (db : DB) (tableName idxName : String) (txn tbl ix : Nat)
    (h1 : eng.transaction db tableName "readonly" = Except.ok txn)
    (h2 : eng.objectStore txn tableName = Except.ok tbl)
    (h3 : eng.index tbl idxName = Except.ok ix) :
    (∀ entries : List V, eng.openCursor ix "prev" = Except.ok (Settle.success entries) →
      getLastValueFromTable (some db) eng tableName idxName =
        ([], POutcome.resolved entries.head?)) ∧
    (∀ e, eng.openCursor ix "prev" = Except.ok (Settle.failure e) →
      getLastValueFromTable (some db) eng tableName idxName =
        ([], POutcome.rejected (Reject.failureMessage
          "Failed to retrieve last value from object store"))) ∧
    (∀ (eng2 : Engine K V) (entries entries2 : List V),
      eng2.transaction db tableName "readonly" = Except.ok txn →
      eng2.objectStore txn tableName = Except.ok tbl →
      eng2.index tbl idxName = Except.ok ix →
      eng.openCursor ix "prev" = Except.ok (Settle.success entries) →
      eng2.openCursor ix "prev" = Except.ok (Settle.success entries2) →
      entries.head? = entries2.head? →
      getLastValueFromTable (some db) eng tableName idxName =
        getLastValueFromTable (some db) eng2 tableName idxName) := by
  refine ⟨?_, ?_, ?_⟩
  · intro entries h4
    exact getLast_resolves_head K V eng db tableName idxName txn tbl ix entries h1 h2 h3 h4
  · intro e h4
    simp [getLastValueFromTable, handleTransactionErr, handleObjectStoreErr, handleIndexErr,
      handleOpenCursorErr, errorHandlerGenerator, customErrorBoundary,
      customErrorBoundaryGenerator, customErrHandlerGenerator, errorCase, h1, h2, h3, h4]
  · intro eng2 entries entries2 g1 g2 g3 h4 g4 hhead
    rw [getLast_resolves_head K V eng db tableName idxName txn tbl ix entries h1 h2 h3 h4,
      getLast_resolves_head K V eng2 db tableName idxName txn tbl ix entries2 g1 g2 g3 g4,
      hhead]

/-- Witness for C6: with the all-success engine whose reverse cursor holds
entries `[5, 3]`, `getLastValueFromTable` resolves with the first entry `5`;
with the cursor-error engine it rejects with the fixed message. -/
theorem getLast_cursor_first_entry_or_fixed_reject_witness :
    getLastValueFromTable (some db0) engOk "memoTable" "memo" =
        ([], POutcome.resolved (some 5)) ∧
      getLastValueFromTable (some db0) engCursorFail "memoTable" "memo" =
        ([], POutcome.rejected (Reject.failureMessage
          "Failed to retrieve last value from object store")) :=
  ⟨(getLast_cursor_first_entry_or_fixed_reject Nat Nat engOk db0 "memoTable" "memo"
      0 1 2 rfl rfl rfl).1 [5, 3] rfl,
    (getLast_cursor_first_entry_or_fixed_reject Nat Nat engCursorFail db0 "memoTable" "memo"
      0 1 2 rfl rfl rfl).2.1 errE rfl⟩

/-- C7: on a held handle with transaction and table acquired, `saveValue`'s
outcome is driven by the `add` request exactly when the declared type is
`"add"` and by the `put` request otherwise; and the `createError` stage
handler wraps only the issuing of that request — a synchronous issuing throw
produces the `createError` diagnostic, while an asynchronous settlement
failure produces no `createError` diagnostic (it is delivered through the
request's own channels). -/
theorem saveValue_add_iff_type_add (K V : Type) (eng : Engine K V) (db : DB)
    (tableName : String) (key : Option K) (v : V) (ty : String) (b1 b2 : Bool)
    (txn tbl : Nat)
    (h1 : eng.transaction db tableName "readwrite" = Except.ok txn)
    (h2 : eng.objectStore txn tableName = Except.ok tbl) :
    (ty = "add" → saveValue (some db) eng tableName key v ty b1 b2 =
      match eng.add tbl v key with
      | Except.error _ =>
        ⟨[LogEntry.error "createError 이 발생했습니다", LogEntry.log "uncaught error"], 0, 0⟩
      | Except.ok (Settle.success _) =>
        ⟨[LogEntry.log "save success"], if b1 then 1 else 0, 0⟩
      | Except.ok (Settle.failure _) =>
        ⟨[LogEntry.error "no suffient space to save data"], 0, if b2 then 1 else 0⟩) ∧
    (ty ≠ "add" → saveValue (some db) eng tableName key v ty b1 b2 =
      match eng.put tbl v key with
      | Except.error _ =>
        ⟨[LogEntry.error "createError 이 발생했습니다", LogEntry.log "uncaught error"], 0, 0⟩
      | Except.ok (Settle.success _) =>
        ⟨[LogEntry.log "save success"], if b1 then 1 else 0, 0⟩
      | Except.ok (Settle.failure _) =>
        ⟨[LogEntry.error "no suffient space to save data"], 0, if b2 then 1 else 0⟩) ∧
    (∀ e, (if ty = "add" then eng.add tbl v key else eng.put tbl v key) = Except.error e →
      (saveValue (some db) eng tableName key v ty b1 b2).logs =
        [LogEntry.error "createError 이 발생했습니다", LogEntry.log "uncaught error"]) ∧
    (∀ e, (if ty = "add" then eng.add tbl v key else eng.put tbl v key) =
        Except.ok (Settle.failure e) →
      (saveValue (some db) eng tableName key v ty b1 b2).logs =
        [LogEntry.error "no suffient space to save data"]) := by
  refine ⟨?_, ?_, ?_, ?_⟩
  · intro hty
    subst hty
    cases h3 : eng.add tbl v key with
    | error e =>
      simp [saveValue, handleTransactionErr, handleObjectStoreErr, handleCreateErr,
        errorHandlerGenerator, customErrorBoundary, customErrorBoundaryGenerator,
        customErrHandlerGenerator, errorCase, h1, h2, h3]
    | ok s =>
      cases s with
      | success u =>
        simp [saveValue, handleTransactionErr, handleObjectStoreErr, handleCreateErr,
          errorHandlerGenerator, customErrorBoundary, customErrorBoundaryGenerator,
          customErrHandlerGenerator, errorCase, h1, h2, h3]
      | failure e =>
        simp [saveValue, handleTransactionErr, handleObjectStoreErr, handleCreateErr,
          errorHandlerGenerator, customErrorBoundary, customErrorBoundaryGenerator,
          customErrHandlerGenerator, errorCase, h1, h2, h3]
  · intro hty
    cases h3 : eng.put tbl v key with
    | error e =>
      simp [saveValue, handleTransactionErr, handleObjectStoreErr, handleCreateErr,
        errorHandlerGenerator, customErrorBoundary, customErrorBoundaryGenerator,
        customErrHandlerGenerator, errorCase, h1, h2, h3, hty]
    | ok s =>
      cases s with
      | success u =>
        simp [saveValue, handleTransactionErr, handleObjectStoreErr, handleCreateErr,
          errorHandlerGenerator, customErrorBoundary, customErrorBoundaryGenerator,
          customErrHandlerGenerator, errorCase, h1, h2, h3, hty]
      | failure e =>
        simp [saveValue, handleTransactionErr, handleObjectStoreErr, handleCreateErr,
          errorHandlerGenerator, customErrorBoundary, customErrorBoundaryGenerator,
          customErrHandlerGenerator, errorCase, h1, h2, h3, hty]
  · intro e h3
    simp [saveValue, handleTransactionErr, handleObjectStoreErr, handleCreateErr,
      errorHandlerGenerator, customErrorBoundary, customErrorBoundaryGenerator,
      customErrHandlerGenerator, errorCase, h1, h2, h3]
  · intro e h3
    simp [saveValue, handleTransactionErr, handleObjectStoreErr, handleCreateErr,
      errorHandlerGenerator, customErrorBoundary, customErrorBoundaryGenerator,
      customErrHandlerGenerator, errorCase, h1, h2, h3]

/-- Witness for C7: with the all-success engine, `saveValue` with type `"add"`
and a supplied `onSuccess` logs the success and invokes the callback once. -/
theorem saveValue_add_iff_type_add_witness :
    saveValue (some db0) engOk "memoTable" none 42 "add" true false =
      ⟨[LogEntry.log "save success"], 1, 0⟩ :=
  (saveValue_add_iff_type_add Nat Nat engOk db0 "memoTable" none 42 "add" true false
    0 1 rfl rfl).1 rfl

/-- C8: `createTable` is idempotent in the table name: when a table of the
given name already exists on the handle, the call performs no schema mutation
(the handle is returned unchanged, no store and no index is created) and does
not throw; consequently, after a call that did create the table, a repeated
call with the same name is a no-op — a table is created at most once per
name. -/
theorem createTable_idempotent (db : DB) (tableName : String) :
    (db.objectStoreNames.contains tableName = true →
      createTable (some db) tableName = ([], some db, none)) ∧
    (∀ (db1 : DB) (s : Store),
      createTable (some db) tableName = ([], some db1, some s) →
      createTable (some db1) tableName = ([], some db1, none)) := by
  constructor
  · intro h
    have hmem : tableName ∈ db.objectStoreNames := by simpa using h
    simp [createTable, hmem]
  · intro db1 s h
    by_cases hc : tableName ∈ db.objectStoreNames
    · simp [createTable, hc] at h
    · simp [createTable, hc] at h
      obtain ⟨hdb1, -⟩ := h
      have hmem : tableName ∈ db1.objectStoreNames := by
        subst hdb1
        simp [DB.objectStoreNames]
      simp [createTable, hmem]

/-- Witness for C8: `db0` already holds the table `memoTable`, and
`createTable` on it returns the handle unchanged with no created store. -/
theorem createTable_idempotent_witness :
    createTable (some db0) "memoTable" = ([], some db0, none) :=
  (createTable_idempotent db0 "memoTable").1 rfl
